import Mathlib

/-!
Shallow embedding of the aggregation core of the GrapesPoker dashboard.

Conventions of the embedding:
- JavaScript numbers carrying money or metric totals are modelled as rationals;
  finishing positions, point amounts and week numbers are modelled as integers.
- A JavaScript Map built by a forEach of set calls is modelled as an association
  list queried by lookupLast (last binding wins, exactly as Map.set overwrites).
- The JavaScript or-default idiom (x || d) is modelled by the jsOr functions,
  which return the default when the value is absent or equal to the falsy
  zero / empty string.
- Array.prototype.sort with a numeric comparator is a stable sort in the
  JavaScript specification; it is modelled by List.mergeSort with the
  comparator translated to a boolean less-or-equal test.
- Date parsing (new Date(s).getTime()) is abstracted as a function parameter
  dateVal from strings to integers.
-/

/-- JS Map.get on a map built by successive set calls: the last binding for a
key wins. -/
def lookupLast {κ ν : Type} [BEq κ] (l : List (κ × ν)) (k : κ) : Option ν :=
  (l.reverse.find? (fun p => p.1 == k)).map (fun p => p.2)

/-- JS (x || d) for an optional rational: absent and 0 are falsy. -/
def jsOrQ (o : Option ℚ) (d : ℚ) : ℚ :=
  match o with
  | none => d
  | some v => if v = 0 then d else v

/-- JS (x || d) for an optional integer: absent and 0 are falsy. -/
def jsOrZ (o : Option Int) (d : Int) : Int :=
  match o with
  | none => d
  | some v => if v = 0 then d else v

/-- JS (x || d) for an optional string: absent and the empty string are falsy. -/
def jsOrStr (o : Option String) (d : String) : String :=
  match o with
  | none => d
  | some s => if s = "" then d else s

/-- JS (x || 0) applied to a number that is always present. -/
def jsOr0 (x : ℚ) : ℚ := if x = 0 then 0 else x

/-- JS template rendering of a possibly undefined number, as used in the
prize-key template literal. -/
def posStr : Option Int → String
  | some p => toString p
  | none => "undefined"

/-- Player record (src/types/api.ts). -/
structure Player where
  id : String
  orgId : String
  firstName : String
  lastName : String
  nickname : Option String
deriving DecidableEq, Repr

/-- TournamentSchedule record (src/types/api.ts); the tournament key may
appear under the correct spelling or under the API typo tournamnetId. -/
structure TournamentSchedule where
  id : String
  tournamentId : Option String
  tournamnetId : Option String
  orgId : String
  date : Option String
  time : Option String
  weekNum : Option Int
deriving DecidableEq, Repr

/-- LiveGame record (src/types/api.ts), the played instance of a schedule. -/
structure LiveGame where
  id : String
  tournamentId : String
  scheduleId : Option String
  numOfPlayers : Option Int
  totalPot : Option ℚ
deriving DecidableEq, Repr

/-- LivePlayer record: one participation of a player in a live game. The raw
API field read by the components is named placed (accessed through an any
cast in the source). -/
structure LivePlayer where
  id : String
  tournamentId : String
  liveGameId : String
  playerId : String
  placed : Option Int
deriving DecidableEq, Repr

/-- PointLevel record: maps a finishing position (levelNum) to points. -/
structure PointLevel where
  id : String
  pointsId : String
  levelNum : Int
  amount : Int
deriving DecidableEq, Repr

/-- LivePrize record: keyed by live game and finishing place, not by player. -/
structure LivePrize where
  id : String
  tournamentId : String
  liveGameId : String
  place : Int
  amount : ℚ
deriving DecidableEq, Repr

/-- TournamentPlayer record: the trusted per-tournament rollup. -/
structure TournamentPlayer where
  id : String
  tournamentId : String
  playerId : String
  totalPoints : Option ℚ
  gamesPlayed : Option ℚ
  totalEliminated : Option ℚ
  totalBounties : Option ℚ
  earnings : Option ℚ
deriving DecidableEq, Repr

/-- The point-level map built in loadGameResults and loadPlayerHistory:
forEach set of (levelNum, amount), queried by position. -/
def pointLevelLookup (levels : List PointLevel) (p : Int) : Option Int :=
  lookupLast (levels.map (fun l => (l.levelNum, l.amount))) p

/-- Points resolution shared by loadGameResults (part_001 line 91) and
loadPlayerHistory (part_004 line 435):
position ? pointLevelMap.get(position) || 0 : 0. -/
def calcPoints (levels : List PointLevel) (position : Option Int) : Int :=
  match position with
  | none => 0
  | some p => if p = 0 then 0 else jsOrZ (pointLevelLookup levels p) 0

/-- One row of the single-game results table (part_001). -/
structure GameResult where
  position : Int
  playerName : String
  points : Int
  prizeMoney : ℚ
deriving DecidableEq, Repr

/-- The prize map of loadGameResults: prizes filtered to the matching game,
keyed by the liveGameId_place template string. -/
def prizeAssocFor (prizes : List LivePrize) (gameId : String) : List (String × ℚ) :=
  (prizes.filter (fun pr => pr.liveGameId == gameId)).map
    (fun pr => (pr.liveGameId ++ "_" ++ toString pr.place, pr.amount))

/-- The per-participation mapping step of loadGameResults (part_001 lines
88 to 103): resolve player name, points and prize; a falsy position is
replaced by the sentinel 999. -/
def resolveGameRow (playerAssoc : List (String × Player))
    (prizeAssoc : List (String × ℚ)) (levels : List PointLevel)
    (gameId : String) (gp : LivePlayer) : GameResult :=
  let player := lookupLast playerAssoc gp.playerId
  let position := gp.placed
  let points := calcPoints levels position
  let prizeKey := gameId ++ "_" ++ posStr position
  let prizeMoney := jsOrQ (lookupLast prizeAssoc prizeKey) 0
  { position := match position with
      | none => 999
      | some p => if p = 0 then 999 else p
    playerName := match player with
      | some pl => pl.firstName ++ " " ++ pl.lastName
      | none => "Unknown Player"
    points := points
    prizeMoney := prizeMoney }

/-- The unsorted kept rows of loadGameResults: participations of the matched
game, resolved, with the sentinel rows dropped by the filter. -/
def gameResultsKept (allPlayers : List Player) (prizes : List LivePrize)
    (levels : List PointLevel) (game : LiveGame)
    (livePlayers : List LivePlayer) : List GameResult :=
  let gamePlayers := livePlayers.filter (fun lp => lp.liveGameId == game.id)
  let playerAssoc := allPlayers.map (fun p => (p.id, p))
  let prizeAssoc := prizeAssocFor prizes game.id
  (gamePlayers.map (resolveGameRow playerAssoc prizeAssoc levels game.id)).filter
    (fun r => r.position != 999)

/-- The results pipeline of loadGameResults: map, drop sentinel rows, sort
ascending by position (stable JS sort). -/
def gameResultsRows (allPlayers : List Player) (prizes : List LivePrize)
    (levels : List PointLevel) (game : LiveGame)
    (livePlayers : List LivePlayer) : List GameResult :=
  (gameResultsKept allPlayers prizes levels game livePlayers).mergeSort
    (fun a b => a.position ≤ b.position)

/-- The view state set by loadGameResults. -/
structure GameResultsView where
  results : List GameResult
  totalPlayers : Int
  totalPrizePool : ℚ
deriving DecidableEq, Repr

/-- loadGameResults (part_001): find the live game whose scheduleId equals
the id of the given schedule; none models the early return when no game
matches. The total prize pool is the fold of the resolved row prizes. -/
def loadGameResults (scheduleId : String) (liveGames : List LiveGame)
    (livePlayers : List LivePlayer) (allPlayers : List Player)
    (prizes : List LivePrize) (levels : List PointLevel) : Option GameResultsView :=
  match liveGames.find? (fun g => g.scheduleId == some scheduleId) with
  | none => none
  | some game =>
    let gamePlayers := livePlayers.filter (fun lp => lp.liveGameId == game.id)
    let rows := gameResultsRows allPlayers prizes levels game livePlayers
    some { results := rows
           totalPlayers := jsOrZ game.numOfPlayers (Int.ofNat gamePlayers.length)
           totalPrizePool := rows.foldl (fun s r => s + r.prizeMoney) 0 }

/-- One entry of the per-player game history (src/types/api.ts
PlayerGameHistory). -/
structure PlayerGameHistory where
  gameDate : String
  gameNumber : Option Int
  position : Option Int
  points : Int
  prizeMoney : Option ℚ
deriving DecidableEq, Repr

/-- The per-participation mapping step of loadPlayerHistory (part_004 lines
427 to 448): resolve game, schedule, date, points and prize. The prize
lookup result is kept as an optional value, with no or-zero default. -/
def resolveHistoryRow (liveGames : List LiveGame)
    (schedules : List TournamentSchedule) (prizes : List LivePrize)
    (levels : List PointLevel) (pg : LivePlayer) : PlayerGameHistory :=
  let game := lookupLast (liveGames.map (fun g => (g.id, g))) pg.liveGameId
  let schedule : Option TournamentSchedule :=
    match game with
    | none => none
    | some g =>
      match g.scheduleId with
      | none => none
      | some sid =>
        if sid = "" then none
        else lookupLast (schedules.map (fun s => (s.id, s))) sid
  let position := pg.placed
  let calculatedPoints := calcPoints levels position
  let prizeKey := pg.liveGameId ++ "_" ++ posStr position
  let prizeMoney :=
    lookupLast (prizes.map (fun pr => (pr.liveGameId ++ "_" ++ toString pr.place, pr.amount)))
      prizeKey
  { gameDate := jsOrStr (schedule.bind (fun s => s.date)) ""
    gameNumber := schedule.bind (fun s => s.weekNum)
    position := position
    points := calculatedPoints
    prizeMoney := prizeMoney }

/-- The unsorted history of loadPlayerHistory: participations of the target
player, resolved, with the rows lacking a date dropped by the filter. -/
def playerHistoryBase (playerId : String) (livePlayers : List LivePlayer)
    (liveGames : List LiveGame) (schedules : List TournamentSchedule)
    (prizes : List LivePrize) (levels : List PointLevel) : List PlayerGameHistory :=
  let playerGames := livePlayers.filter (fun lp => lp.playerId == playerId)
  (playerGames.map (resolveHistoryRow liveGames schedules prizes levels)).filter
    (fun h => h.gameDate != "")

/-- loadPlayerHistory (part_004): filter to the target player, resolve each
row, drop rows with an empty date, sort ascending by parsed date (stable JS
sort, with dateVal standing for new Date of the string). -/
def loadPlayerHistory (dateVal : String → Int) (playerId : String)
    (livePlayers : List LivePlayer) (liveGames : List LiveGame)
    (schedules : List TournamentSchedule) (prizes : List LivePrize)
    (levels : List PointLevel) : List PlayerGameHistory :=
  (playerHistoryBase playerId livePlayers liveGames schedules prizes levels).mergeSort
    (fun a b => dateVal a.gameDate ≤ dateVal b.gameDate)

/-- One leaderboard entry as built by loadLeaderboard (part_004). -/
structure LeaderboardEntry where
  id : String
  playerId : String
  rank : Nat
  totalPoints : ℚ
  gamesPlayed : ℚ
  totalWinnings : ℚ
  totalKnockouts : ℚ
  totalBounties : ℚ
  averagePoints : ℚ
  player : Player
deriving DecidableEq, Repr

/-- The entry construction of loadLeaderboard (part_004 lines 37 to 55),
including the guarded averagePoints and the placeholder identity for an
unknown player id. -/
def mkLeaderboardEntry (playerAssoc : List (String × Player))
    (tp : TournamentPlayer) (rank : Nat) : LeaderboardEntry :=
  { id := tp.id
    playerId := tp.playerId
    rank := rank
    totalPoints := jsOrQ tp.totalPoints 0
    gamesPlayed := jsOrQ tp.gamesPlayed 0
    totalWinnings := jsOrQ tp.earnings 0
    totalKnockouts := jsOrQ tp.totalEliminated 0
    totalBounties := jsOrQ tp.totalBounties 0
    averagePoints :=
      match tp.gamesPlayed, tp.totalPoints with
      | some g, some t => if g ≠ 0 ∧ t ≠ 0 ∧ 0 < g then t / g else 0
      | _, _ => 0
    player := (lookupLast playerAssoc tp.playerId).getD
      { id := tp.playerId, orgId := "", firstName := "Unknown",
        lastName := "Player", nickname := none } }

/-- loadLeaderboard (part_004): build the player map, then one entry per
tournament player with rank equal to one plus the original index. -/
def loadLeaderboard (allPlayers : List Player)
    (tournamentPlayers : List TournamentPlayer) : List LeaderboardEntry :=
  let playerAssoc := allPlayers.map (fun p => (p.id, p))
  tournamentPlayers.enum.map (fun ie => mkLeaderboardEntry playerAssoc ie.2 (ie.1 + 1))

/-- The four leaderboard view criteria (src/types/api.ts LeaderboardView). -/
inductive LeaderboardView where
  | points
  | winnings
  | knockouts
  | bounties
deriving DecidableEq, Repr

/-- The metric selected by each view, as read in the sort comparators. -/
def viewMetric (v : LeaderboardView) (e : LeaderboardEntry) : ℚ :=
  match v with
  | .points => e.totalPoints
  | .winnings => e.totalWinnings
  | .knockouts => e.totalKnockouts
  | .bounties => e.totalBounties

/-- getSortedLeaderboard (part_004 lines 65 to 79): copy the stored list and
stable-sort it descending by the metric of the selected view; each
comparator reads the field through the JS or-zero guard. -/
def getSortedLeaderboard (view : LeaderboardView)
    (leaderboard : List LeaderboardEntry) : List LeaderboardEntry :=
  let sorted := leaderboard
  match view with
  | .points => sorted.mergeSort (fun a b => jsOr0 b.totalPoints ≤ jsOr0 a.totalPoints)
  | .winnings => sorted.mergeSort (fun a b => jsOr0 b.totalWinnings ≤ jsOr0 a.totalWinnings)
  | .knockouts => sorted.mergeSort (fun a b => jsOr0 b.totalKnockouts ≤ jsOr0 a.totalKnockouts)
  | .bounties => sorted.mergeSort (fun a b => jsOr0 b.totalBounties ≤ jsOr0 a.totalBounties)

/-- The rendered leaderboard rows (part_004 lines 147 to 166): the rank cell
of the row at index i of the sorted data displays i + 1. -/
def displayedLeaderboard (view : LeaderboardView)
    (leaderboard : List LeaderboardEntry) : List (Nat × LeaderboardEntry) :=
  (getSortedLeaderboard view leaderboard).enum.map (fun ie => (ie.1 + 1, ie.2))

/-- The client-side filter of getTournamentSchedule (part_002 lines 70 to
72): keep a schedule when either spelling of the tournament key matches. -/
def tournamentScheduleFilter (tournamentId : String)
    (schedules : List TournamentSchedule) : List TournamentSchedule :=
  schedules.filter (fun s =>
    s.tournamnetId == some tournamentId || s.tournamentId == some tournamentId)

/-- Sample player used by the concrete witnesses. -/
def samplePlayerA : Player :=
  { id := "pA", orgId := "org1", firstName := "Ann", lastName := "Ace", nickname := none }

/-- Second sample player used by the concrete witnesses. -/
def samplePlayerB : Player :=
  { id := "pB", orgId := "org1", firstName := "Bob", lastName := "Bet", nickname := none }

/-- Sample live game linked to schedule S1. -/
def sampleGame : LiveGame :=
  { id := "G1", tournamentId := "T1", scheduleId := some "S1",
    numOfPlayers := some 2, totalPot := some 55 }

/-- Sample participation: player pA finished first in game G1. -/
def sampleRowA : LivePlayer :=
  { id := "x1", tournamentId := "T1", liveGameId := "G1",
    playerId := "pA", placed := some 1 }

/-- Sample participation: player pB finished second in game G1. -/
def sampleRowB : LivePlayer :=
  { id := "x2", tournamentId := "T1", liveGameId := "G1",
    playerId := "pB", placed := some 2 }

/-- Sample prize record: an explicitly recorded zero prize for place 1 of
game G1; there is no record at all for place 2. -/
def sampleZeroPrize : LivePrize :=
  { id := "z1", tournamentId := "T1", liveGameId := "G1", place := 1, amount := 0 }

/-- Sample point level: first place is worth 50 points. -/
def sampleLevel : PointLevel :=
  { id := "L1", pointsId := "P1", levelNum := 1, amount := 50 }

/-- Sample schedule with a date, carrying the correctly spelled key. -/
def sampleSchedule : TournamentSchedule :=
  { id := "S1", tournamentId := some "T1", tournamnetId := none, orgId := "org1",
    date := some "2024-01-05", time := none, weekNum := some 1 }

/-- Sample schedule carrying only the misspelled tournament key. -/
def sampleTypoSchedule : TournamentSchedule :=
  { id := "S2", tournamentId := none, tournamnetId := some "T1", orgId := "org1",
    date := some "2024-01-12", time := none, weekNum := some 2 }

/-- Sample rollup row: 12 games, 480 points. -/
def sampleStanding : TournamentPlayer :=
  { id := "tp1", tournamentId := "T1", playerId := "pA",
    totalPoints := some 480, gamesPlayed := some 12,
    totalEliminated := some 3, totalBounties := some 2, earnings := some 150 }

/-- Second sample rollup row: 8 games, 480 points, higher earnings. -/
def sampleStanding2 : TournamentPlayer :=
  { id := "tp2", tournamentId := "T1", playerId := "pB",
    totalPoints := some 480, gamesPlayed := some 8,
    totalEliminated := some 5, totalBounties := some 1, earnings := some 200 }

/-- Sample leaderboard entry built from the first rollup row. -/
def sampleEntry : LeaderboardEntry := mkLeaderboardEntry [] sampleStanding 1

/-- Sample leaderboard entry built from the second rollup row. -/
def sampleEntry2 : LeaderboardEntry := mkLeaderboardEntry [] sampleStanding2 2

/-- Abstract date parser used by the concrete witnesses. -/
def sampleDateVal : String → Int := fun s => (s.length : Int)

/-- Sample participation carrying the literal position 999. -/
def sample999Row : LivePlayer :=
  { id := "x3", tournamentId := "T1", liveGameId := "G1",
    playerId := "pC", placed := some 999 }

/-! Helper lemmas about the embedding. -/

theorem lookupLast_eq_none {κ ν : Type} [BEq κ] [LawfulBEq κ]
    (l : List (κ × ν)) (k : κ) (h : ∀ p ∈ l, p.1 ≠ k) :
    lookupLast l k = none := by
  unfold lookupLast
  rw [List.find?_eq_none.mpr]
  · rfl
  · intro p hp
    simpa using h p (List.mem_reverse.mp hp)

theorem lookupLast_agree {κ ν : Type} [BEq κ] [LawfulBEq κ]
    (l : List (κ × ν)) (k : κ) (a : ν)
    (hex : ∃ p ∈ l, p.1 = k) (hall : ∀ p ∈ l, p.1 = k → p.2 = a) :
    lookupLast l k = some a := by
  unfold lookupLast
  cases hfind : l.reverse.find? (fun p => p.1 == k) with
  | none =>
    obtain ⟨p, hp, hpk⟩ := hex
    have hnone := List.find?_eq_none.mp hfind p (List.mem_reverse.mpr hp)
    simp [hpk] at hnone
  | some q =>
    have hq1 := List.find?_some hfind
    have hq2 : q ∈ l := List.mem_reverse.mp (List.mem_of_find?_eq_some hfind)
    have hqa := hall q hq2 (by simpa using hq1)
    simp [hqa]

theorem foldl_add_map {α : Type} (f : α → ℚ) :
    ∀ (l : List α) (c : ℚ), l.foldl (fun s r => s + f r) c = c + (l.map f).sum
  | [], c => by simp
  | x :: t, c => by
    simp [foldl_add_map f t (c + f x), add_assoc]

theorem jsOr0_eq (x : ℚ) : jsOr0 x = x := by
  unfold jsOr0
  split <;> simp_all

theorem getSortedLeaderboard_eq (v : LeaderboardView) (l : List LeaderboardEntry) :
    getSortedLeaderboard v l
      = l.mergeSort (fun a b => viewMetric v b ≤ viewMetric v a) := by
  cases v <;> simp [getSortedLeaderboard, viewMetric, jsOr0_eq]

theorem enumFrom_map_fst_add_one {α : Type} :
    ∀ (i : Nat) (l : List α),
      (l.enumFrom i).map (fun ie => ie.1 + 1) = List.range' (i + 1) l.length
  | _, [] => rfl
  | i, _ :: t => by
    simp [List.enumFrom, List.range', enumFrom_map_fst_add_one (i + 1) t]

theorem descKey_trans {α β : Type} [LinearOrder β] (f : α → β) (a b c : α)
    (h1 : decide (f b ≤ f a) = true) (h2 : decide (f c ≤ f b) = true) :
    decide (f c ≤ f a) = true := by
  simp only [decide_eq_true_eq] at h1 h2 ⊢
  exact le_trans h2 h1

theorem descKey_total {α β : Type} [LinearOrder β] (f : α → β) (a b : α) :
    (decide (f b ≤ f a) || decide (f a ≤ f b)) = true := by
  simpa using le_total (f b) (f a)

theorem ascKey_trans {α β : Type} [LinearOrder β] (f : α → β) (a b c : α)
    (h1 : decide (f a ≤ f b) = true) (h2 : decide (f b ≤ f c) = true) :
    decide (f a ≤ f c) = true := by
  simp only [decide_eq_true_eq] at h1 h2 ⊢
  exact le_trans h1 h2

theorem ascKey_total {α β : Type} [LinearOrder β] (f : α → β) (a b : α) :
    (decide (f a ≤ f b) || decide (f b ≤ f a)) = true := by
  simpa using le_total (f a) (f b)

/-! Claim theorems. -/

/-- C1: for every participation whose finishing position has no entry in the
point-level table of the tournament, the resolved points equal exactly 0;
and for a position that has an entry, the level-table lookup yields the
amount of that entry. -/
theorem points_zero_when_unmapped_and_lookup_amount
    (levels : List PointLevel) (pos : Option Int) (p a : Int) :
    ((∀ lvl ∈ levels, some lvl.levelNum ≠ pos) → calcPoints levels pos = 0)
    ∧ ((∃ lvl ∈ levels, lvl.levelNum = p) →
        (∀ lvl ∈ levels, lvl.levelNum = p → lvl.amount = a) →
        pointLevelLookup levels p = some a) := by
  constructor
  · intro h
    cases pos with
    | none => rfl
    | some q =>
      by_cases hq : q = 0
      · simp [calcPoints, hq]
      · have hnone : pointLevelLookup levels q = none := by
          apply lookupLast_eq_none
          intro pr hpr
          obtain ⟨lvl, hlvl, rfl⟩ := List.mem_map.mp hpr
          simpa using h lvl hlvl
        simp [calcPoints, hq, hnone, jsOrZ]
  · intro hex hall
    unfold pointLevelLookup
    apply lookupLast_agree
    · obtain ⟨lvl, hl, he⟩ := hex
      exact ⟨(lvl.levelNum, lvl.amount), List.mem_map.mpr ⟨lvl, hl, rfl⟩, he⟩
    · intro pr hpr hpk
      obtain ⟨lvl, hlvl, rfl⟩ := List.mem_map.mp hpr
      exact hall lvl hlvl hpk

/-- C1 witness: position 4 has no entry in the sample table and resolves to
0 points; position 1 has an entry and the lookup yields its amount 50. -/
theorem points_zero_when_unmapped_and_lookup_amount_witness :
    calcPoints [sampleLevel] (some 4) = 0
    ∧ pointLevelLookup [sampleLevel] 1 = some 50 :=
  ⟨(points_zero_when_unmapped_and_lookup_amount [sampleLevel] (some 4) 1 50).1
      (by decide),
   (points_zero_when_unmapped_and_lookup_amount [sampleLevel] (some 4) 1 50).2
      (by decide) (by decide)⟩

/-- C2 counterexample: one explicitly recorded zero prize for place 1 of
game G1 and no record at all for place 2; the single-game results resolver
reports prize 0 for both rows, so the absent case is collapsed into 0 and is
not distinguishable from the recorded zero prize even though the source data
distinguishes them. -/
theorem prize_absent_collapsed_counterexample :
    (loadGameResults "S1" [sampleGame] [sampleRowA, sampleRowB]
        [samplePlayerA, samplePlayerB] [sampleZeroPrize] [sampleLevel]).map
        (fun v => v.results.map (fun r => (r.position, r.prizeMoney)))
      = some [(1, 0), (2, 0)]
    ∧ sampleZeroPrize.amount = 0 ∧ sampleZeroPrize.place = 1
    ∧ sampleRowB.placed = some 2
    ∧ (∀ pr ∈ [sampleZeroPrize], pr.place ≠ 2) := by
  refine ⟨?_, by decide, by decide, by decide, by decide⟩
  simp [loadGameResults, gameResultsRows, gameResultsKept, resolveGameRow,
    prizeAssocFor, calcPoints, jsOrQ, jsOrZ, posStr, lookupLast, pointLevelLookup,
    List.mergeSort, sampleGame, sampleRowA, sampleRowB, samplePlayerA,
    samplePlayerB, sampleZeroPrize, sampleLevel]
  decide

/-- C2 amended: in the player-history resolver a pair with no matching prize
record resolves to the explicit no-prize value none, which stays
distinguishable from the some-0 of a recorded zero prize; in the single-game
results resolver the absent case is collapsed to the number 0. -/
theorem prize_absent_explicit_in_history
    (liveGames : List LiveGame) (schedules : List TournamentSchedule)
    (prizes : List LivePrize) (levels : List PointLevel) (pg : LivePlayer) :
    ((∀ pr ∈ prizes,
        pr.liveGameId ++ "_" ++ toString pr.place
          ≠ pg.liveGameId ++ "_" ++ posStr pg.placed) →
      (resolveHistoryRow liveGames schedules prizes levels pg).prizeMoney = none)
    ∧ ((∀ pr ∈ prizes,
        pr.liveGameId ++ "_" ++ toString pr.place
          ≠ pg.liveGameId ++ "_" ++ posStr pg.placed) →
      ∀ playerAssoc : List (String × Player),
        (resolveGameRow playerAssoc (prizeAssocFor prizes pg.liveGameId) levels
          pg.liveGameId pg).prizeMoney = 0) := by
  constructor
  · intro h
    simp only [resolveHistoryRow]
    apply lookupLast_eq_none
    intro q hq
    obtain ⟨pr, hpr, rfl⟩ := List.mem_map.mp hq
    exact h pr hpr
  · intro h playerAssoc
    simp only [resolveGameRow]
    have hnone : lookupLast (prizeAssocFor prizes pg.liveGameId)
        (pg.liveGameId ++ "_" ++ posStr pg.placed) = none := by
      apply lookupLast_eq_none
      intro q hq
      obtain ⟨pr, hpr, rfl⟩ := List.mem_map.mp hq
      exact h pr (List.mem_of_mem_filter hpr)
    rw [hnone]
    rfl

/-- C2 amended witness: the sample participation at place 2 has no prize
record, and its history entry carries the explicit no-prize value. -/
theorem prize_absent_explicit_in_history_witness :
    (resolveHistoryRow [sampleGame] [sampleSchedule] [sampleZeroPrize]
      [sampleLevel] sampleRowB).prizeMoney = none :=
  (prize_absent_explicit_in_history [sampleGame] [sampleSchedule]
    [sampleZeroPrize] [sampleLevel] sampleRowB).1 (by decide)

/-- Helper for C6: the guarded average of one constructed entry. -/
theorem mkEntry_average (playerAssoc : List (String × Player))
    (tp : TournamentPlayer) (rank : Nat) :
    (0 < (mkLeaderboardEntry playerAssoc tp rank).gamesPlayed →
      (mkLeaderboardEntry playerAssoc tp rank).averagePoints
        = (mkLeaderboardEntry playerAssoc tp rank).totalPoints
          / (mkLeaderboardEntry playerAssoc tp rank).gamesPlayed)
    ∧ ((mkLeaderboardEntry playerAssoc tp rank).gamesPlayed = 0 →
      (mkLeaderboardEntry playerAssoc tp rank).averagePoints = 0) := by
  rcases hg : tp.gamesPlayed with _ | g
  · constructor
    · intro h
      simp [mkLeaderboardEntry, jsOrQ, hg] at h
    · intro _
      simp [mkLeaderboardEntry, jsOrQ, hg]
  · by_cases hg0 : g = 0
    · subst hg0
      constructor
      · intro h
        simp [mkLeaderboardEntry, jsOrQ, hg] at h
      · intro _
        rcases ht : tp.totalPoints with _ | t <;>
          simp [mkLeaderboardEntry, jsOrQ, hg, ht]
    · have hgp : (mkLeaderboardEntry playerAssoc tp rank).gamesPlayed = g := by
        simp [mkLeaderboardEntry, jsOrQ, hg, hg0]
      constructor
      · intro h
        rw [hgp] at h
        rcases ht : tp.totalPoints with _ | t
        · simp [mkLeaderboardEntry, jsOrQ, hg, ht, hg0, zero_div]
        · by_cases ht0 : t = 0
          · subst ht0
            simp [mkLeaderboardEntry, jsOrQ, hg, ht, hg0, zero_div]
          · simp [mkLeaderboardEntry, jsOrQ, hg, ht, hg0, ht0, h]
      · intro h0
        rw [hgp] at h0
        exact absurd h0 hg0

/-- C6: for every entry built by the leaderboard loader, averagePoints is
totalPoints divided by gamesPlayed when gamesPlayed is positive, and 0 when
gamesPlayed is 0 (which also covers a missing rollup count); the division is
guarded and total. -/
theorem average_points_guarded (allPlayers : List Player)
    (tps : List TournamentPlayer) (e : LeaderboardEntry)
    (he : e ∈ loadLeaderboard allPlayers tps) :
    (0 < e.gamesPlayed → e.averagePoints = e.totalPoints / e.gamesPlayed)
    ∧ (e.gamesPlayed = 0 → e.averagePoints = 0) := by
  simp only [loadLeaderboard, List.mem_map] at he
  obtain ⟨ie, _, rfl⟩ := he
  exact mkEntry_average _ ie.2 (ie.1 + 1)

/-- C6 witness: the sample rollup row with 12 games and 480 points gives a
positive game count and the exact quotient as average. -/
theorem average_points_guarded_witness :
    0 < sampleEntry.gamesPlayed
    ∧ sampleEntry.averagePoints = sampleEntry.totalPoints / sampleEntry.gamesPlayed :=
  ⟨by decide,
   (average_points_guarded [] [sampleStanding] sampleEntry
      (by
        have h : loadLeaderboard [] [sampleStanding] = [sampleEntry] := rfl
        rw [h]
        exact List.mem_singleton.mpr rfl)).1 (by decide)⟩

/-- C7: a schedule row is kept by the tournament-schedule filter exactly when
it is in the fetched collection and either the correctly spelled or the
misspelled tournament key equals the target tournament id. -/
theorem schedule_dual_spelling (tid : String)
    (ss : List TournamentSchedule) (s : TournamentSchedule) :
    s ∈ tournamentScheduleFilter tid ss ↔
      s ∈ ss ∧ (s.tournamentId = some tid ∨ s.tournamnetId = some tid) := by
  simp only [tournamentScheduleFilter, List.mem_filter, Bool.or_eq_true, beq_iff_eq]
  tauto

/-- C7 witness: a schedule bearing only the misspelled key is kept. -/
theorem schedule_dual_spelling_witness :
    sampleTypoSchedule ∈ tournamentScheduleFilter "T1"
      [sampleSchedule, sampleTypoSchedule] :=
  (schedule_dual_spelling "T1" [sampleSchedule, sampleTypoSchedule]
    sampleTypoSchedule).mpr ⟨by decide, Or.inr (by decide)⟩

/-- C3: the game-history resolver returns exactly the resolved rows of the
target player whose linked schedule yields a non-empty date, sorted
ascending by the parsed date, with ties left in original collection order
(stable sort). -/
theorem history_exact_filter_and_stable_sort
    (dateVal : String → Int) (playerId : String)
    (livePlayers : List LivePlayer) (liveGames : List LiveGame)
    (schedules : List TournamentSchedule) (prizes : List LivePrize)
    (levels : List PointLevel) :
    (loadPlayerHistory dateVal playerId livePlayers liveGames schedules prizes
        levels).Perm
      (playerHistoryBase playerId livePlayers liveGames schedules prizes levels)
    ∧ (loadPlayerHistory dateVal playerId livePlayers liveGames schedules prizes
        levels).Pairwise
      (fun a b => dateVal a.gameDate ≤ dateVal b.gameDate)
    ∧ (∀ e ∈ loadPlayerHistory dateVal playerId livePlayers liveGames schedules
        prizes levels, e.gameDate ≠ "")
    ∧ (∀ a b : PlayerGameHistory,
        List.Sublist [a, b] (playerHistoryBase playerId livePlayers liveGames
          schedules prizes levels) →
        dateVal a.gameDate = dateVal b.gameDate →
        List.Sublist [a, b] (loadPlayerHistory dateVal playerId livePlayers
          liveGames schedules prizes levels)) := by
  refine ⟨List.mergeSort_perm _ _, ?_, ?_, ?_⟩
  · have hs := List.sorted_mergeSort
      (ascKey_trans (fun e : PlayerGameHistory => dateVal e.gameDate))
      (ascKey_total (fun e : PlayerGameHistory => dateVal e.gameDate))
      (playerHistoryBase playerId livePlayers liveGames schedules prizes levels)
    exact hs.imp (fun h => by simpa using h)
  · intro e he
    have hb : e ∈ playerHistoryBase playerId livePlayers liveGames schedules
        prizes levels := List.mem_mergeSort.mp he
    simp only [playerHistoryBase, List.mem_filter] at hb
    simpa using hb.2
  · intro a b hsub heq
    apply List.pair_sublist_mergeSort
      (ascKey_trans (fun e : PlayerGameHistory => dateVal e.gameDate))
      (ascKey_total (fun e : PlayerGameHistory => dateVal e.gameDate))
      _ hsub
    simpa using le_of_eq heq

/-- C3 witness: the resolver output at concrete sample data is sorted
ascending by the parsed date. -/
theorem history_exact_filter_and_stable_sort_witness :
    (loadPlayerHistory sampleDateVal "pA" [sampleRowA, sampleRowB] [sampleGame]
        [sampleSchedule] [sampleZeroPrize] [sampleLevel]).Pairwise
      (fun a b => sampleDateVal a.gameDate ≤ sampleDateVal b.gameDate) :=
  (history_exact_filter_and_stable_sort sampleDateVal "pA" [sampleRowA, sampleRowB]
    [sampleGame] [sampleSchedule] [sampleZeroPrize] [sampleLevel]).2.1

/-- C5: for every view criterion the sorted leaderboard is a permutation of
the input, ordered descending by the selected metric, with ties between
equal-metric entries left in the input order; the statement holds for each
criterion separately, so switching the criterion fully re-sorts by the new
metric. -/
theorem leaderboard_sort_by_view (v : LeaderboardView) (l : List LeaderboardEntry) :
    (getSortedLeaderboard v l).Perm l
    ∧ (getSortedLeaderboard v l).Pairwise
      (fun a b => viewMetric v b ≤ viewMetric v a)
    ∧ (∀ a b : LeaderboardEntry, List.Sublist [a, b] l →
        viewMetric v a = viewMetric v b →
        List.Sublist [a, b] (getSortedLeaderboard v l)) := by
  rw [getSortedLeaderboard_eq]
  refine ⟨List.mergeSort_perm _ _, ?_, ?_⟩
  · have hs := List.sorted_mergeSort
      (descKey_trans (viewMetric v)) (descKey_total (viewMetric v)) l
    exact hs.imp (fun h => by simpa using h)
  · intro a b hsub heq
    apply List.pair_sublist_mergeSort
      (descKey_trans (viewMetric v)) (descKey_total (viewMetric v)) _ hsub
    simpa using le_of_eq heq.symm

/-- C5 witness: the winnings view at concrete sample entries is a
permutation of the input. -/
theorem leaderboard_sort_by_view_witness :
    (getSortedLeaderboard .winnings [sampleEntry, sampleEntry2]).Perm
      [sampleEntry, sampleEntry2] :=
  (leaderboard_sort_by_view .winnings [sampleEntry, sampleEntry2]).1

/-- C9: sorting a leaderboard that is already sorted by a criterion again by
the same criterion yields the identical order. -/
theorem leaderboard_resort_idempotent (v : LeaderboardView)
    (l : List LeaderboardEntry)
    (hsorted : l.Pairwise (fun a b => viewMetric v b ≤ viewMetric v a)) :
    getSortedLeaderboard v l = l := by
  rw [getSortedLeaderboard_eq]
  apply List.mergeSort_of_sorted
  exact hsorted.imp (fun h => by simpa using h)

/-- C9 witness: a concrete list sorted descending by points is returned
unchanged by the points sort. -/
theorem leaderboard_resort_idempotent_witness :
    getSortedLeaderboard .points [sampleEntry, sampleEntry2]
      = [sampleEntry, sampleEntry2] :=
  leaderboard_resort_idempotent .points [sampleEntry, sampleEntry2] (by decide)

/-- C8: the rank numbers shown with the leaderboard are exactly 1 up to the
number of entries in the order of the current sorted output, the row at rank
i is the i-th entry of that sort, and the shown ranks do not depend on any
rank value stored on the entries. -/
theorem displayed_rank_positional (v : LeaderboardView)
    (l : List LeaderboardEntry) :
    (displayedLeaderboard v l).map Prod.fst = List.range' 1 l.length
    ∧ (displayedLeaderboard v l).map Prod.snd = getSortedLeaderboard v l
    ∧ ∀ f : LeaderboardEntry → Nat,
        (displayedLeaderboard v (l.map (fun e => { e with rank := f e }))).map
          Prod.fst
        = (displayedLeaderboard v l).map Prod.fst := by
  have hlen : ∀ m : List LeaderboardEntry,
      (getSortedLeaderboard v m).length = m.length := by
    intro m
    rw [getSortedLeaderboard_eq]
    simp
  have hfst : ∀ m : List LeaderboardEntry,
      (displayedLeaderboard v m).map Prod.fst = List.range' 1 m.length := by
    intro m
    unfold displayedLeaderboard
    rw [List.map_map]
    have h2 : (Prod.fst ∘ fun ie : Nat × LeaderboardEntry => (ie.1 + 1, ie.2))
        = fun ie : Nat × LeaderboardEntry => ie.1 + 1 := rfl
    rw [h2]
    have h3 := enumFrom_map_fst_add_one 0 (getSortedLeaderboard v m)
    rw [show (getSortedLeaderboard v m).enum
        = (getSortedLeaderboard v m).enumFrom 0 from rfl, h3, hlen m]
  refine ⟨hfst l, ?_, ?_⟩
  · unfold displayedLeaderboard
    rw [List.map_map]
    have h2 : (Prod.snd ∘ fun ie : Nat × LeaderboardEntry => (ie.1 + 1, ie.2))
        = fun ie : Nat × LeaderboardEntry => ie.2 := rfl
    rw [h2]
    exact List.enum_map_snd _
  · intro f
    rw [hfst, hfst]
    simp

/-- C8 witness: at concrete entries the shown ranks are 1 and 2. -/
theorem displayed_rank_positional_witness :
    (displayedLeaderboard .bounties [sampleEntry, sampleEntry2]).map Prod.fst
      = List.range' 1 2 :=
  (displayed_rank_positional .bounties [sampleEntry, sampleEntry2]).1

/-- C4: given the matched played game, the single-game results resolver
matched it by scheduleId, returns exactly the kept resolved rows sorted
ascending by position, excludes rows whose position is unresolvable (they
carry the sentinel and are filtered), and the reported prize pool is the sum
of the per-row resolved prize amounts, independent of the total stored on
the played-game record. -/
theorem game_results_resolution
    (scheduleId : String) (liveGames : List LiveGame)
    (livePlayers : List LivePlayer) (allPlayers : List Player)
    (prizes : List LivePrize) (levels : List PointLevel) (game : LiveGame)
    (hfind : liveGames.find? (fun g => g.scheduleId == some scheduleId)
      = some game) :
    game.scheduleId = some scheduleId
    ∧ (loadGameResults scheduleId liveGames livePlayers allPlayers prizes
        levels).map GameResultsView.results
      = some (gameResultsRows allPlayers prizes levels game livePlayers)
    ∧ (gameResultsRows allPlayers prizes levels game livePlayers).Perm
        (gameResultsKept allPlayers prizes levels game livePlayers)
    ∧ (∀ gp : LivePlayer, gp.placed = none →
        (resolveGameRow (allPlayers.map (fun p => (p.id, p)))
          (prizeAssocFor prizes game.id) levels game.id gp).position = 999)
    ∧ (gameResultsRows allPlayers prizes levels game livePlayers).Pairwise
        (fun a b => a.position ≤ b.position)
    ∧ (loadGameResults scheduleId liveGames livePlayers allPlayers prizes
        levels).map GameResultsView.totalPrizePool
      = some ((gameResultsRows allPlayers prizes levels game livePlayers).map
          (fun r => r.prizeMoney)).sum
    ∧ (∀ pot : Option ℚ,
        gameResultsRows allPlayers prizes levels { game with totalPot := pot }
          livePlayers
        = gameResultsRows allPlayers prizes levels game livePlayers) := by
  have hload : loadGameResults scheduleId liveGames livePlayers allPlayers
      prizes levels
      = some { results := gameResultsRows allPlayers prizes levels game livePlayers
               totalPlayers := jsOrZ game.numOfPlayers
                 (Int.ofNat (livePlayers.filter
                   (fun lp => lp.liveGameId == game.id)).length)
               totalPrizePool := (gameResultsRows allPlayers prizes levels game
                 livePlayers).foldl (fun s r => s + r.prizeMoney) 0 } := by
    simp [loadGameResults, hfind]
  refine ⟨?_, ?_, ?_, ?_, ?_, ?_, ?_⟩
  · simpa using List.find?_some hfind
  · rw [hload]
    rfl
  · exact List.mergeSort_perm _ _
  · intro gp h
    simp [resolveGameRow, h]
  · have hs := List.sorted_mergeSort
      (ascKey_trans (fun r : GameResult => r.position))
      (ascKey_total (fun r : GameResult => r.position))
      (gameResultsKept allPlayers prizes levels game livePlayers)
    exact hs.imp (fun h => by simpa using h)
  · rw [hload]
    simp [foldl_add_map]
  · intro pot
    rfl

/-- C4 witness: at concrete data the matched game yields results sorted
ascending by position. -/
theorem game_results_resolution_witness :
    (gameResultsRows [samplePlayerA, samplePlayerB] [sampleZeroPrize]
        [sampleLevel] sampleGame [sampleRowA, sampleRowB]).Pairwise
      (fun a b => a.position ≤ b.position) :=
  (game_results_resolution "S1" [sampleGame] [sampleRowA, sampleRowB]
    [samplePlayerA, samplePlayerB] [sampleZeroPrize] [sampleLevel] sampleGame
    (by decide)).2.2.2.2.1

/-- C10: the single-game results resolver maps a recorded position of 999, a
0 position and a missing position alike to the internal sentinel 999, and no
row with position 999 or 0 can ever appear in its output. -/
theorem sentinel_999_exclusion
    (allPlayers : List Player) (prizes : List LivePrize)
    (levels : List PointLevel) (game : LiveGame)
    (livePlayers : List LivePlayer) :
    (∀ gp : LivePlayer,
        (gp.placed = some 999 ∨ gp.placed = some 0 ∨ gp.placed = none) →
        (resolveGameRow (allPlayers.map (fun p => (p.id, p)))
          (prizeAssocFor prizes game.id) levels game.id gp).position = 999)
    ∧ (∀ r ∈ gameResultsRows allPlayers prizes levels game livePlayers,
        r.position ≠ 999 ∧ r.position ≠ 0) := by
  constructor
  · rintro gp (h | h | h) <;> simp [resolveGameRow, h]
  · intro r hr
    have hk : r ∈ gameResultsKept allPlayers prizes levels game livePlayers :=
      List.mem_mergeSort.mp hr
    simp only [gameResultsKept, List.mem_filter, List.mem_map] at hk
    obtain ⟨⟨gp, hgp, rfl⟩, hne⟩ := hk
    rcases hp : gp.placed with _ | p
    · simp [resolveGameRow, hp] at hne
    · by_cases hp0 : p = 0
      · simp [resolveGameRow, hp, hp0] at hne
      · constructor
        · simpa using hne
        · simp [resolveGameRow, hp, hp0]

/-- C10 witness: a participation recorded at exactly position 999 is mapped
to the sentinel. -/
theorem sentinel_999_exclusion_witness :
    (resolveGameRow [] (prizeAssocFor [sampleZeroPrize] "G1") [sampleLevel]
        "G1" sample999Row).position = 999 :=
  (sentinel_999_exclusion [] [sampleZeroPrize] [sampleLevel] sampleGame
    [sampleRowA, sampleRowB]).1 sample999Row (Or.inl (by decide))
